import Mathlib

/-!
Shallow embedding of the arcade game core (src/arcadegame.py): the fixed-tick
update logic of the player, projectiles, power-ups, particles, cutscene,
opening crawl and the top-level session state machine.

Conventions of the embedding:
* pygame rect coordinates are integers (`ℤ`); Python floats that feed into
  integer rect fields go through `pyint` (Python `int()` conversion, which
  truncates toward zero).  All other float arithmetic is modelled exactly
  over `ℚ` (the constants involved, 0.3, 1.5, 0.707, ..., are decimal
  literals, so rational arithmetic mirrors the source expressions).
* `pygame.time.get_ticks()` readings are passed in as an explicit `now : ℤ`.
* random draws (`random.random`, `random.randint`, `random.uniform`,
  `random.choice`) and the float sine of the power-up bobbing animation are
  supplied by the per-tick input `TickInput`, so every update is a pure
  function of `(state, input)`.
* audio calls (`Sound.play`, `mixer.music.stop`, ...) are recorded in the
  session's `sounds` field, the list of audio events emitted by the last
  update; `cutsceneStarts` is a ghost counter of `Cutscene.start` calls,
  incremented at the one call site, used to state the one-shot property.
* the display is never resized in the model: the play-field bounds are the
  startup constants `SCREEN_WIDTH` by `SCREEN_HEIGHT`.
-/

namespace ArcadeGame

/-! ## Config constants (class Config) -/

def SCREEN_WIDTH : ℤ := 900
def SCREEN_HEIGHT : ℤ := 700
def PLAYER_SPEED : ℤ := 5
def PLAYER_FRAME_DELAY : ℕ := 5
def DASH_DISTANCE : ℤ := 80
def DASH_COOLDOWN : ℤ := 1000
def CUTSCENE_TRIGGER_SCORE : ℤ := 1000
def PROJECTILE_W : ℤ := 20
def PROJECTILE_H : ℤ := 10
def PROJECTILE_SPEED : ℚ := 7
def PROJECTILE_FIRE_DELAY : ℚ := 14
def POWERUP_SIZE : ℤ := 25
def POWERUP_DURATION : ℤ := 5000
def INITIAL_LIVES : ℤ := 3
def CUTSCENE_MESSAGE_DURATION : ℤ := 3000
def DIFFICULTY_INCREASE_SCORE : ℤ := 500

def RED : ℕ × ℕ × ℕ := (255, 0, 0)
def GREEN : ℕ × ℕ × ℕ := (0, 255, 0)
def BLUE : ℕ × ℕ × ℕ := (0, 100, 255)
def PURPLE : ℕ × ℕ × ℕ := (128, 0, 128)
def ORANGE : ℕ × ℕ × ℕ := (255, 165, 0)
def CYAN : ℕ × ℕ × ℕ := (0, 255, 255)

/-- Python `int()` conversion of a float: truncation toward zero (also how
pygame stores a float assigned to an integer rect field). -/
def pyint (q : ℚ) : ℤ := if 0 ≤ q then ⌊q⌋ else ⌈q⌉

/-! ## pygame.Rect -/

structure Rect where
  x : ℤ
  y : ℤ
  w : ℤ
  h : ℤ
  deriving DecidableEq, Repr

def Rect.centerx (r : Rect) : ℤ := r.x + r.w / 2

def Rect.centery (r : Rect) : ℤ := r.y + r.h / 2

/-- pygame `Rect.colliderect`: true when the interiors overlap (touching
edges do not collide). -/
def rectsCollide (a b : Rect) : Bool :=
  decide (a.x < b.x + b.w) && decide (b.x < a.x + a.w) &&
  decide (a.y < b.y + b.h) && decide (b.y < a.y + a.h)

/-- One coordinate of pygame `Rect.clamp_ip` against the play field starting
at 0: an oversized rect is centered, otherwise the position is pushed back
inside `[0, bound - len]`. -/
def clampCoord (x len bound : ℤ) : ℤ :=
  if bound ≤ len then (bound - len) / 2
  else if x < 0 then 0
  else if bound < x + len then bound - len
  else x

/-- `rect.clamp_ip(pygame.Rect(0, 0, SCREEN_WIDTH, SCREEN_HEIGHT))`. -/
def Rect.clampScreen (r : Rect) : Rect :=
  { r with x := clampCoord r.x r.w SCREEN_WIDTH, y := clampCoord r.y r.h SCREEN_HEIGHT }

/-- Move a rect so its center is the given point (pygame `rect.center = ...`). -/
def Rect.withCenter (r : Rect) (cx cy : ℤ) : Rect :=
  { r with x := cx - r.w / 2, y := cy - r.h / 2 }

/-! ## Input snapshot -/

/-- The held keys the update logic reads.  Each direction stands for the
source's `keys[K_a] or keys[K_LEFT]` style disjunction; `dashKey` for
`keys[K_SPACE] or keys[K_LSHIFT]`. -/
structure Keys where
  left : Bool
  right : Bool
  up : Bool
  down : Bool
  dashKey : Bool
  deriving DecidableEq, Repr

/-! ## enums -/

inductive GState where
  | openingCrawl
  | menu
  | playing
  | cutscene
  | gameOver
  deriving DecidableEq, Repr

inductive PowerUpType where
  | shield
  | rapid_fire
  | slow_time
  | multi_life
  deriving DecidableEq, Repr

/-- Audio events emitted by the session (AudioPlayer calls). -/
inductive AudioEv where
  | hitSnd
  | gameOverSnd
  | musicStop
  | musicStart
  deriving DecidableEq, Repr

/-! ## Particle / ParticleSystem -/

structure Particle where
  x : ℚ
  y : ℚ
  color : ℕ × ℕ × ℕ
  vx : ℚ
  vy : ℚ
  lifetime : ℤ
  max_lifetime : ℤ
  size : ℕ
  deriving DecidableEq, Repr

/-- `Particle.update`: advance by the velocity, accumulate gravity on the
vertical velocity, count the lifetime down; `none` once the lifetime is
spent. -/
def Particle.update (pa : Particle) : Option Particle :=
  let pa2 := { pa with x := pa.x + pa.vx, y := pa.y + pa.vy,
                       vy := pa.vy + 1/10, lifetime := pa.lifetime - 1 }
  if 0 < pa2.lifetime then some pa2 else none

/-- `ParticleSystem.update`: keep the particles whose update reports them
still alive. -/
def particlesUpdate (ps : List Particle) : List Particle :=
  ps.filterMap Particle.update

/-- `ParticleSystem.add_explosion` with the default count of 15: the random
velocity, lifetime and size draws of the i-th spawned particle come from the
given seed functions. -/
def addExplosion (ps : List Particle) (x y : ℚ) (color : ℕ × ℕ × ℕ)
    (vel : ℕ → ℚ × ℚ) (life : ℕ → ℤ) (sz : ℕ → ℕ) : List Particle :=
  ps ++ (List.range 15).map (fun i =>
    { x := x, y := y, color := color, vx := (vel i).1, vy := (vel i).2,
      lifetime := life i, max_lifetime := life i, size := sz i })

/-- `ParticleSystem.add_trail`: one particle with random velocity, lifetime
and size. -/
def addTrail (ps : List Particle) (x y : ℚ) (color : ℕ × ℕ × ℕ)
    (vel : ℚ × ℚ) (life : ℤ) (sz : ℕ) : List Particle :=
  ps ++ [{ x := x, y := y, color := color, vx := vel.1, vy := vel.2,
           lifetime := life, max_lifetime := life, size := sz }]

/-! ## PowerUp -/

structure PowerUp where
  ty : PowerUpType
  rect : Rect
  spawn_time : ℤ
  deriving DecidableEq, Repr

/-- `PowerUp.update`: bob vertically (the float `sin` reading of the
animation comes in as `sinVal`, scaled by 0.5 and truncated into the integer
rect) and survive while less than 10000 ms old. -/
def PowerUp.update (pu : PowerUp) (now : ℤ) (sinVal : ℚ) : Option PowerUp :=
  let pu2 := { pu with rect :=
    { pu.rect with y := pyint ((pu.rect.y : ℚ) + sinVal * (1/2)) } }
  if now - pu.spawn_time < 10000 then some pu2 else none

/-- the color each power-up type explodes with on collection
(`powerup.properties[type]['color']`). -/
def powerupColor : PowerUpType → ℕ × ℕ × ℕ
  | .shield => BLUE
  | .rapid_fire => RED
  | .slow_time => PURPLE
  | .multi_life => GREEN

/-! ## Player -/

structure Player where
  numFrames : ℕ
  current_frame : ℕ
  frame_counter : ℕ
  rect : Rect
  frozen : Bool
  last_dash_time : ℤ
  dash_trail : List ((ℚ × ℚ) × ℤ)
  shield_active : Bool
  shield_end_time : ℤ
  rapid_fire_active : Bool
  rapid_fire_end_time : ℤ
  slow_time_active : Bool
  slow_time_end_time : ℤ
  deriving DecidableEq, Repr

/-- `Player.update`: advance the animation frame every
`PLAYER_FRAME_DELAY`-th tick unless frozen, deactivate each timed effect
once `now` is strictly past its end time, and decay the dash trail (drop the
entries at alpha ≤ 0, fade the rest by 30). -/
def Player.update (p : Player) (now : ℤ) : Player :=
  let fc := p.frame_counter + 1
  let fc2 := if p.frozen then p.frame_counter
    else if PLAYER_FRAME_DELAY ≤ fc then 0 else fc
  let cf2 := if p.frozen then p.current_frame
    else if PLAYER_FRAME_DELAY ≤ fc then (p.current_frame + 1) % p.numFrames
    else p.current_frame
  { p with
    frame_counter := fc2
    current_frame := cf2
    shield_active := p.shield_active && !(decide (p.shield_end_time < now))
    rapid_fire_active := p.rapid_fire_active && !(decide (p.rapid_fire_end_time < now))
    slow_time_active := p.slow_time_active && !(decide (p.slow_time_end_time < now))
    dash_trail := p.dash_trail.filterMap
      (fun pa => if 0 < pa.2 then some (pa.1, pa.2 - 30) else none) }

/-- `Player.move`: per-axis displacement at base speed (×1.5 while slow-time
is active), each rect assignment truncating as in pygame, then clamp to the
play field; no-op while frozen. -/
def Player.move (p : Player) (k : Keys) : Player :=
  if p.frozen then p else
  let speed : ℚ := if p.slow_time_active then (PLAYER_SPEED : ℚ) * (3/2) else (PLAYER_SPEED : ℚ)
  let x1 := if k.left then pyint ((p.rect.x : ℚ) - speed) else p.rect.x
  let x2 := if k.right then pyint ((x1 : ℚ) + speed) else x1
  let y1 := if k.up then pyint ((p.rect.y : ℚ) - speed) else p.rect.y
  let y2 := if k.down then pyint ((y1 : ℚ) + speed) else y1
  { p with rect := Rect.clampScreen { p.rect with x := x2, y := y2 } }

/-- `Player.dash`: fires when the cooldown has strictly elapsed and a dash
key is held.  Direction comes from the held movement keys (the later
assignment wins on opposed keys), defaulting to rightward; diagonals are
scaled by 0.707; the displacement is `int(d * DASH_DISTANCE)` per axis, then
the rect is clamped; 5 interpolated trail points are appended with alphas
150, 120, 90, 60, 30; the dash timestamp is refreshed.  Otherwise returns
`false` and changes nothing. -/
def Player.dash (p : Player) (k : Keys) (now : ℤ) : Player × Bool :=
  if DASH_COOLDOWN < now - p.last_dash_time ∧ k.dashKey = true then
    let dx0 : ℚ := if k.right then 1 else if k.left then -1 else 0
    let dy0 : ℚ := if k.down then 1 else if k.up then -1 else 0
    let dx1 : ℚ := if dx0 = 0 ∧ dy0 = 0 then 1 else dx0
    let dx2 : ℚ := if dx1 ≠ 0 ∧ dy0 ≠ 0 then dx1 * (707/1000) else dx1
    let dy2 : ℚ := if dx1 ≠ 0 ∧ dy0 ≠ 0 then dy0 * (707/1000) else dy0
    let oldcx := p.rect.centerx
    let oldcy := p.rect.centery
    let r2 := Rect.clampScreen
      { p.rect with x := p.rect.x + pyint (dx2 * (DASH_DISTANCE : ℚ)),
                    y := p.rect.y + pyint (dy2 * (DASH_DISTANCE : ℚ)) }
    let trail := (List.range 5).map (fun (i : ℕ) =>
      (((oldcx : ℚ) + ((r2.centerx : ℚ) - (oldcx : ℚ)) * ((i : ℚ) / 5),
        (oldcy : ℚ) + ((r2.centery : ℚ) - (oldcy : ℚ)) * ((i : ℚ) / 5)),
       150 - (i : ℤ) * 30))
    ({ p with rect := r2, dash_trail := p.dash_trail ++ trail, last_dash_time := now }, true)
  else (p, false)

/-- `Player.activate_powerup`: refresh the matching effect flag and end
time; `MULTI_LIFE` matches no branch and changes nothing here. -/
def Player.activate_powerup (p : Player) (ty : PowerUpType) (now : ℤ) : Player :=
  match ty with
  | .shield => { p with shield_active := true, shield_end_time := now + POWERUP_DURATION }
  | .rapid_fire => { p with rapid_fire_active := true, rapid_fire_end_time := now + POWERUP_DURATION }
  | .slow_time => { p with slow_time_active := true, slow_time_end_time := now + POWERUP_DURATION }
  | .multi_life => p

/-- `Player.freeze`. -/
def Player.freeze (p : Player) (b : Bool) : Player := { p with frozen := b }

/-! ## Projectile / ProjectileManager -/

structure Projectile where
  rect : Rect
  speed : ℚ
  trail_positions : List (ℤ × ℤ)
  deriving DecidableEq, Repr

/-- `Projectile.update`: record the center in the bounded trail (last 5),
advance horizontally by `speed × timeMultiplier` (truncated into the integer
rect), `none` once past the right edge. -/
def Projectile.update (pr : Projectile) (tm : ℚ) : Option Projectile :=
  let t1 := pr.trail_positions ++ [(pr.rect.centerx, pr.rect.centery)]
  let t2 := if 5 < t1.length then t1.tail else t1
  let x2 := pyint ((pr.rect.x : ℚ) + pr.speed * tm)
  let pr2 := { pr with rect := { pr.rect with x := x2 }, trail_positions := t2 }
  if x2 ≤ SCREEN_WIDTH then some pr2 else none

structure ProjectileManager where
  projectiles : List Projectile
  fire_counter : ℤ
  active : Bool
  difficulty_multiplier : ℚ
  deriving DecidableEq, Repr

/-- The effective fire-delay threshold of `ProjectileManager.update`: the
base delay divided by the difficulty multiplier, doubled while the player's
rapid-fire effect is active. -/
def ProjectileManager.fireDelay (pm : ProjectileManager) (pl : Player) : ℚ :=
  let fd := PROJECTILE_FIRE_DELAY / pm.difficulty_multiplier
  if pl.rapid_fire_active then fd * 2 else fd

/-- `ProjectileManager.update`: no-op while inactive; otherwise advance the
fire counter against `fireDelay`, on expiry spawn 1 projectile (2 once the
difficulty reaches 2.0) at a random height with speed
`base × uniform(0.8, 1.2) × difficulty` (the draws come from `projY` /
`projMult`), then advance every projectile by the slow-time multiplier,
culling the ones off the right edge. -/
def ProjectileManager.update (pm : ProjectileManager) (pl : Player)
    (projY : ℕ → ℤ) (projMult : ℕ → ℚ) : ProjectileManager :=
  if pm.active = false then pm else
  let fd := pm.fireDelay pl
  let tm : ℚ := if pl.slow_time_active then 3/10 else 1
  let fc := pm.fire_counter + 1
  let spawnNow := fd ≤ (fc : ℚ)
  let num := if pm.difficulty_multiplier < 2 then 1 else 2
  let spawned : List Projectile := if spawnNow then
      (List.range num).map (fun i =>
        { rect := { x := 0, y := projY i, w := PROJECTILE_W, h := PROJECTILE_H },
          speed := PROJECTILE_SPEED * (projMult i * pm.difficulty_multiplier),
          trail_positions := [] })
    else []
  { pm with fire_counter := if spawnNow then 0 else fc,
            projectiles := (pm.projectiles ++ spawned).filterMap (fun pr => pr.update tm) }

/-- The projectile scan of `ProjectileManager.check_collision`: delete the
first projectile whose rect collides with the player's and stop. -/
def removeFirstHit (r : Rect) : List Projectile → Bool × List Projectile
  | [] => (false, [])
  | pr :: rest =>
    if rectsCollide pr.rect r = true then (true, rest)
    else ((removeFirstHit r rest).1, pr :: (removeFirstHit r rest).2)

/-- `ProjectileManager.check_collision`: always false with the projectile
list untouched while the player's shield is active; otherwise remove the
first colliding projectile and report whether one was found. -/
def ProjectileManager.check_collision (pm : ProjectileManager)
    (player_rect : Rect) (pl : Player) : Bool × List Projectile :=
  if pl.shield_active then (false, pm.projectiles)
  else removeFirstHit player_rect pm.projectiles

/-- `ProjectileManager.update_difficulty`: multiplier
`1.0 + (score // 500) * 0.3` (Python floor division). -/
def ProjectileManager.update_difficulty (pm : ProjectileManager) (score : ℤ) :
    ProjectileManager :=
  { pm with difficulty_multiplier :=
      1 + ((score / DIFFICULTY_INCREASE_SCORE : ℤ) : ℚ) * (3/10) }

/-- `ProjectileManager.clear`. -/
def ProjectileManager.clear (pm : ProjectileManager) : ProjectileManager :=
  { pm with projectiles := [] }

/-- `ProjectileManager.set_active`. -/
def ProjectileManager.set_active (pm : ProjectileManager) (b : Bool) : ProjectileManager :=
  { pm with active := b }

/-! ## Cutscene -/

def NUM_CUTSCENE_MESSAGES : ℕ := 2

structure Cutscene where
  enemyW : ℤ
  enemyH : ℤ
  active : Bool
  stage : ℕ
  timer_start : ℤ
  enemy_rect : Option Rect
  deriving DecidableEq, Repr

/-- `Cutscene.start`: activate at stage 0, record the start time, position
the enemy next to the player. -/
def Cutscene.start (cs : Cutscene) (player_rect : Rect) (now : ℤ) : Cutscene :=
  { cs with
    active := true
    stage := 0
    timer_start := now
    enemy_rect := some { x := player_rect.x - cs.enemyW,
                         y := player_rect.y - cs.enemyH / 2,
                         w := cs.enemyW, h := cs.enemyH } }

/-- `Cutscene.update`: true immediately when inactive; advance a stage after
each `CUTSCENE_MESSAGE_DURATION`; deactivate and report completion once the
messages are exhausted. -/
def Cutscene.update (cs : Cutscene) (now : ℤ) : Cutscene × Bool :=
  if cs.active = false then (cs, true)
  else if CUTSCENE_MESSAGE_DURATION ≤ now - cs.timer_start then
    let st := cs.stage + 1
    if NUM_CUTSCENE_MESSAGES ≤ st then ({ cs with stage := st, active := false }, true)
    else ({ cs with stage := st, timer_start := now }, false)
  else (cs, false)

/-! ## OpeningCrawl -/

def NUM_CRAWL_LINES : ℕ := 24

structure OpeningCrawl where
  text_y_positions : List ℚ
  skip_timer : ℕ
  can_skip : Bool
  deriving DecidableEq, Repr

/-- `OpeningCrawl.reset`: line i starts at `SCREEN_HEIGHT + i * 50`. -/
def OpeningCrawl.resetState : OpeningCrawl :=
  { text_y_positions := (List.range NUM_CRAWL_LINES).map
      (fun i => (SCREEN_HEIGHT : ℚ) + (i : ℚ) * 50),
    skip_timer := 0, can_skip := false }

/-- `OpeningCrawl.update`: scroll every line up by 1.5; complete once the
last line is above -100; otherwise tick the skip timer, unlocking skipping
past 60 ticks. -/
def OpeningCrawl.update (oc : OpeningCrawl) : OpeningCrawl × Bool :=
  let ps := oc.text_y_positions.map (fun y => y - 3/2)
  if ps.getLastD 0 < -100 then ({ oc with text_y_positions := ps }, true)
  else
    let st := oc.skip_timer + 1
    ({ oc with text_y_positions := ps, skip_timer := st,
               can_skip := oc.can_skip || decide (60 < st) }, false)

/-! ## Per-tick input: held keys, the tick's clock reading and all random
draws the tick consumes, so the session update is a pure function. -/

structure TickInput where
  now : ℤ
  keys : Keys
  /-- `random.random() < POWERUP_SPAWN_CHANCE` this tick. -/
  spawnRoll : Bool
  spawnX : ℤ
  spawnY : ℤ
  spawnType : PowerUpType
  /-- the float sine reading of the i-th live power-up's bobbing animation. -/
  bobSin : ℕ → ℚ
  /-- `random.randint(0, SCREEN_HEIGHT - PROJECTILE_SIZE[1])` per spawned projectile. -/
  projY : ℕ → ℤ
  /-- `random.uniform(0.8, 1.2)` per spawned projectile. -/
  projMult : ℕ → ℚ
  shakeOffset : ℤ × ℤ
  /-- random particle draws of the j-th explosion of the tick. -/
  explVel : ℕ → ℕ → ℚ × ℚ
  explLife : ℕ → ℕ → ℤ
  explSize : ℕ → ℕ → ℕ
  /-- random particle draws of the dash trail particle. -/
  trailVel : ℚ × ℚ
  trailLife : ℤ
  trailSize : ℕ

/-! ## GameSession (class Game) -/

structure Game where
  state : GState
  lives : ℤ
  score : ℤ
  cutscene_triggered : Bool
  player : Player
  pm : ProjectileManager
  cutscene : Cutscene
  opening_crawl : OpeningCrawl
  powerups : List PowerUp
  particles : List Particle
  screen_shake : ℤ
  shake_offset : ℤ × ℤ
  game_start_time : ℤ
  /-- audio events emitted by the most recent update. -/
  sounds : List AudioEv
  /-- ghost counter: `Cutscene.start` invocations since the session began. -/
  cutsceneStarts : ℕ

/-- Result of the power-up collection loop of `Game.update_game`. -/
structure CollectRes where
  player : Player
  lives : ℤ
  particles : List Particle
  remaining : List PowerUp
  explCount : ℕ

/-- The power-up collection loop of `Game.update_game`: every power-up
overlapping the player is consumed in order — `MULTI_LIFE` grants a life,
any other type activates the player effect — with an explosion at its
center in its type's color; the rest stay.  `j` numbers the explosions of
the tick for the random-draw oracle. -/
def collectPowerups (inp : TickInput) (prect : Rect) (pl : Player) (lives : ℤ)
    (parts : List Particle) (j : ℕ) : List PowerUp → CollectRes
  | [] => ⟨pl, lives, parts, [], j⟩
  | pu :: rest =>
    if rectsCollide pu.rect prect = true then
      let pl2 := if pu.ty = PowerUpType.multi_life then pl
                 else pl.activate_powerup pu.ty inp.now
      let lives2 := if pu.ty = PowerUpType.multi_life then lives + 1 else lives
      let parts2 := addExplosion parts (pu.rect.centerx : ℚ) (pu.rect.centery : ℚ)
        (powerupColor pu.ty) (inp.explVel j) (inp.explLife j) (inp.explSize j)
      collectPowerups inp prect pl2 lives2 parts2 (j + 1) rest
    else
      let res := collectPowerups inp prect pl lives parts j rest
      { res with remaining := pu :: res.remaining }

/-- The pre-collision pipeline of a Playing tick: move, dash (with its trail
particle), player timers — returns the updated player and the particle list
after the optional dash trail. -/
def Game.tickPre (g : Game) (inp : TickInput) : Player × List Particle :=
  let pl1 := g.player.move inp.keys
  let dres := pl1.dash inp.keys inp.now
  let parts1 := if dres.2 = true then
      addTrail g.particles (dres.1.rect.centerx : ℚ) (dres.1.rect.centery : ℚ)
        CYAN inp.trailVel inp.trailLife inp.trailSize
    else g.particles
  (dres.1.update inp.now, parts1)

/-- The projectile-manager pipeline of a Playing tick: recompute difficulty
from the score, then advance/spawn projectiles against the updated player. -/
def Game.tickPm2 (g : Game) (inp : TickInput) : ProjectileManager :=
  ((g.pm.update_difficulty g.score).update (g.tickPre inp).1 inp.projY inp.projMult)

/-- The power-up pipeline of a Playing tick: advance particles, bob/expire
the power-ups, maybe spawn one, then run the collection loop against the
updated player. -/
def Game.tickCol (g : Game) (inp : TickInput) : CollectRes :=
  let pl3 := (g.tickPre inp).1
  let parts2 := particlesUpdate (g.tickPre inp).2
  let pus1 := (g.powerups.enum).filterMap
    (fun ip => ip.2.update inp.now (inp.bobSin ip.1))
  let pus2 := if inp.spawnRoll then
      pus1 ++ [{ ty := inp.spawnType,
                 rect := { x := inp.spawnX, y := inp.spawnY,
                           w := POWERUP_SIZE, h := POWERUP_SIZE },
                 spawn_time := inp.now }]
    else pus1
  collectPowerups inp pl3.rect pl3 g.lives parts2 0 pus2

/-- The tail of a Playing tick: projectile-player collision (one life lost,
hit sound, explosion and screen shake unless shielded; GameOver with music
stop and game-over sound once lives are exhausted), screen-shake decay, and
the unconditional score increment. -/
def Game.resolveHit (g : Game) (inp : TickInput) (col : CollectRes)
    (pm2 : ProjectileManager) : Game :=
  let cc := pm2.check_collision col.player.rect col.player
  let hitApplied := cc.1 && !col.player.shield_active
  let lives2 := if hitApplied = true then col.lives - 1 else col.lives
  let parts3 := if hitApplied = true then
      addExplosion col.particles (col.player.rect.centerx : ℚ)
        (col.player.rect.centery : ℚ) RED (inp.explVel col.explCount)
        (inp.explLife col.explCount) (inp.explSize col.explCount)
    else col.particles
  let shake1 := if hitApplied = true then 10 else g.screen_shake
  let isOver := hitApplied && decide (lives2 ≤ 0)
  { g with
    state := if isOver = true then GState.gameOver else g.state
    lives := lives2
    score := g.score + 1
    player := col.player
    pm := { pm2 with projectiles := cc.2 }
    powerups := col.remaining
    particles := parts3
    screen_shake := if 0 < shake1 then shake1 - 1 else shake1
    shake_offset := if 0 < shake1 then inp.shakeOffset else ((0 : ℤ), (0 : ℤ))
    sounds := (if hitApplied = true then [AudioEv.hitSnd] else []) ++
              (if isOver = true then [AudioEv.musicStop, AudioEv.gameOverSnd] else []) }

/-- `Game.update_game`: nothing outside Playing; the one-shot cutscene
trigger fires first (and returns early, before any other per-tick work);
otherwise the full Playing pipeline runs. -/
def Game.update_game (g : Game) (inp : TickInput) : Game :=
  if g.state ≠ GState.playing then g
  else if g.cutscene_triggered = false ∧ CUTSCENE_TRIGGER_SCORE ≤ g.score then
    { g with
      cutscene_triggered := true
      state := GState.cutscene
      cutscene := g.cutscene.start g.player.rect inp.now
      cutsceneStarts := g.cutsceneStarts + 1
      player := g.player.freeze true
      pm := g.pm.set_active false
      sounds := [] }
  else g.resolveHit inp (g.tickCol inp) (g.tickPm2 inp)

/-- `Game.update_cutscene`: once the cutscene reports completion, return to
Playing, unfreeze the player and re-enable the projectiles. -/
def Game.update_cutscene (g : Game) (inp : TickInput) : Game :=
  let res := g.cutscene.update inp.now
  if res.2 = true then
    { g with
      cutscene := res.1
      state := GState.playing
      player := g.player.freeze false
      pm := g.pm.set_active true
      sounds := [] }
  else { g with cutscene := res.1, sounds := [] }

/-- `Game.update_opening_crawl`: to the menu once the crawl completes. -/
def Game.update_opening_crawl (g : Game) : Game :=
  let res := g.opening_crawl.update
  if res.2 = true then
    { g with opening_crawl := res.1, state := GState.menu, sounds := [] }
  else { g with opening_crawl := res.1, sounds := [] }

/-- `Game.start_game`: reset lives, score, the cutscene one-shot flag,
recenter the player, clear and re-enable the projectiles, clear power-ups
and particles, start the music. -/
def Game.start_game (g : Game) (now : ℤ) : Game :=
  { g with
    state := GState.playing
    lives := INITIAL_LIVES
    score := 0
    cutscene_triggered := false
    game_start_time := now
    player := { g.player with rect :=
      g.player.rect.withCenter ((SCREEN_WIDTH / 2)) ((SCREEN_HEIGHT / 2)) }
    pm := (g.pm.clear).set_active true
    powerups := []
    particles := []
    sounds := [AudioEv.musicStart]
    cutsceneStarts := 0 }

/-- `Game.reset_game`: back to the menu, music stopped. -/
def Game.reset_game (g : Game) : Game :=
  { g with state := GState.menu, sounds := [AudioEv.musicStop] }

/-- One pass of the main loop's update dispatch (MENU and GAME_OVER have no
per-tick update). -/
def Game.stepTick (g : Game) (inp : TickInput) : Game :=
  match g.state with
  | GState.openingCrawl => g.update_opening_crawl
  | GState.playing => g.update_game inp
  | GState.cutscene => g.update_cutscene inp
  | _ => g

/-- A mouse click of the event handler: starts a game from the menu,
returns to the menu from game over, nothing elsewhere. -/
def Game.stepClick (g : Game) (now : ℤ) : Game :=
  match g.state with
  | GState.menu => g.start_game now
  | GState.gameOver => g.reset_game
  | _ => g

/-- `Game.__init__` (after asset loading): opening crawl first, 3 lives,
score 0, trigger flag down; the player's frame count and rect size and the
enemy image size are the loaded assets' dimensions, left as parameters. -/
def initGame (pw ph ew eh : ℤ) (nf : ℕ) : Game :=
  { state := GState.openingCrawl
    lives := INITIAL_LIVES
    score := 0
    cutscene_triggered := false
    player := { numFrames := nf, current_frame := 0, frame_counter := 0,
                rect := (Rect.mk 0 0 pw ph).withCenter
                  ((SCREEN_WIDTH / 2)) ((SCREEN_HEIGHT / 2)),
                frozen := false, last_dash_time := 0, dash_trail := [],
                shield_active := false, shield_end_time := 0,
                rapid_fire_active := false, rapid_fire_end_time := 0,
                slow_time_active := false, slow_time_end_time := 0 }
    pm := { projectiles := [], fire_counter := 0, active := true,
            difficulty_multiplier := 1 }
    cutscene := { enemyW := ew, enemyH := eh, active := false, stage := 0,
                  timer_start := 0, enemy_rect := none }
    opening_crawl := OpeningCrawl.resetState
    powerups := []
    particles := []
    screen_shake := 0
    shake_offset := (0, 0)
    game_start_time := 0
    sounds := []
    cutsceneStarts := 0 }

/-- The session states the program can reach: the initial state (for any
asset dimensions), closed under the per-tick update (for any input) and the
event handler's clicks. -/
inductive Reachable : Game → Prop where
  | init (pw ph ew eh : ℤ) (nf : ℕ) : Reachable (initGame pw ph ew eh nf)
  | tick (g : Game) (inp : TickInput) : Reachable g → Reachable (g.stepTick inp)
  | click (g : Game) (now : ℤ) : Reachable g → Reachable (g.stepClick now)

/-! ## Concrete states used to instantiate the theorems -/

def basePlayer : Player :=
  { numFrames := 4, current_frame := 0, frame_counter := 0,
    rect := ⟨100, 100, 30, 30⟩, frozen := false, last_dash_time := 0,
    dash_trail := [], shield_active := false, shield_end_time := 0,
    rapid_fire_active := false, rapid_fire_end_time := 0,
    slow_time_active := false, slow_time_end_time := 0 }

def wRect : Rect := ⟨100, 100, 30, 30⟩

def wProjA : Projectile := ⟨⟨110, 110, 20, 10⟩, 7, []⟩

def wProjB : Projectile := ⟨⟨105, 95, 20, 10⟩, 7, []⟩

def wPm : ProjectileManager :=
  { projectiles := [wProjA, wProjB], fire_counter := 0, active := true,
    difficulty_multiplier := 1 }

def wShieldPlayer : Player :=
  { basePlayer with shield_active := true, shield_end_time := 9000 }

/-! ## Claims about check_collision (C2, C3) -/

theorem removeFirstHit_fst_iff (r : Rect) (l : List Projectile) :
    (removeFirstHit r l).1 = true ↔ ∃ p ∈ l, rectsCollide p.rect r = true := by
  induction l with
  | nil => simp [removeFirstHit]
  | cons pr rest ih =>
    by_cases hc : rectsCollide pr.rect r = true
    · simp [removeFirstHit, hc]
    · simp [removeFirstHit, hc, ih]

theorem removeFirstHit_fst_false (r : Rect) (l : List Projectile)
    (h : (removeFirstHit r l).1 = false) : (removeFirstHit r l).2 = l := by
  induction l with
  | nil => simp [removeFirstHit]
  | cons pr rest ih =>
    by_cases hc : rectsCollide pr.rect r = true
    · simp [removeFirstHit, hc] at h
    · simp only [removeFirstHit, hc, if_neg] at h ⊢
      simp at h ⊢
      exact ih (by simpa [removeFirstHit, hc] using h)

theorem removeFirstHit_fst_true (r : Rect) (l : List Projectile)
    (h : (removeFirstHit r l).1 = true) :
    ∃ l1 p l2, l = l1 ++ p :: l2 ∧ rectsCollide p.rect r = true ∧
      (∀ q ∈ l1, rectsCollide q.rect r = false) ∧
      (removeFirstHit r l).2 = l1 ++ l2 := by
  induction l with
  | nil => simp [removeFirstHit] at h
  | cons pr rest ih =>
    by_cases hc : rectsCollide pr.rect r = true
    · exact ⟨[], pr, rest, by simp, hc, by simp, by simp [removeFirstHit, hc]⟩
    · have h2 : (removeFirstHit r rest).1 = true := by
        simpa [removeFirstHit, hc] using h
      obtain ⟨l1, p, l2, hl, hp, hall, hsnd⟩ := ih h2
      refine ⟨pr :: l1, p, l2, by simp [hl], hp, ?_, ?_⟩
      · intro q hq
        rcases List.mem_cons.mp hq with hq | hq
        · subst hq; exact Bool.eq_false_iff.mpr hc
        · exact hall q hq
      · simp [removeFirstHit, hc, hsnd]

/-- Claim C2: with the player's shield active, `check_collision` returns
false and leaves the projectile list exactly unchanged, whatever projectiles
overlap the player's bounds. -/
theorem c2_shield_blocks (pm : ProjectileManager) (pl : Player) (r : Rect)
    (h : pl.shield_active = true) :
    pm.check_collision r pl = (false, pm.projectiles) := by
  simp [ProjectileManager.check_collision, h]

theorem c2_shield_blocks_witness :
    rectsCollide wProjA.rect wRect = true ∧
    rectsCollide wProjB.rect wRect = true ∧
    wPm.check_collision wRect wShieldPlayer = (false, wPm.projectiles) :=
  ⟨by decide, by decide, c2_shield_blocks wPm wShieldPlayer wRect rfl⟩

/-- Claim C3: with the shield inactive, `check_collision` reports a hit iff
some stored projectile overlaps the player's bounds; on a miss the list is
unchanged, and on a hit exactly the first overlapping projectile (in stored
order) is removed — one removal per call however many overlap. -/
theorem c3_first_projectile_removed (pm : ProjectileManager) (pl : Player) (r : Rect)
    (h : pl.shield_active = false) :
    ((pm.check_collision r pl).1 = true ↔
        ∃ p ∈ pm.projectiles, rectsCollide p.rect r = true) ∧
    ((pm.check_collision r pl).1 = false →
        (pm.check_collision r pl).2 = pm.projectiles) ∧
    ((pm.check_collision r pl).1 = true →
        ∃ l1 p l2, pm.projectiles = l1 ++ p :: l2 ∧ rectsCollide p.rect r = true ∧
          (∀ q ∈ l1, rectsCollide q.rect r = false) ∧
          (pm.check_collision r pl).2 = l1 ++ l2 ∧
          (pm.check_collision r pl).2.length + 1 = pm.projectiles.length) := by
  have hcc : pm.check_collision r pl = removeFirstHit r pm.projectiles := by
    simp [ProjectileManager.check_collision, h]
  rw [hcc]
  refine ⟨removeFirstHit_fst_iff r pm.projectiles,
          removeFirstHit_fst_false r pm.projectiles, ?_⟩
  intro ht
  obtain ⟨l1, p, l2, hl, hp, hall, hsnd⟩ := removeFirstHit_fst_true r pm.projectiles ht
  refine ⟨l1, p, l2, hl, hp, hall, hsnd, ?_⟩
  rw [hsnd, hl]
  simp
  omega

theorem c3_first_projectile_removed_witness :
    ((wPm.check_collision wRect basePlayer).1 = true ↔
        ∃ p ∈ wPm.projectiles, rectsCollide p.rect wRect = true) ∧
    ((wPm.check_collision wRect basePlayer).1 = false →
        (wPm.check_collision wRect basePlayer).2 = wPm.projectiles) ∧
    ((wPm.check_collision wRect basePlayer).1 = true →
        ∃ l1 p l2, wPm.projectiles = l1 ++ p :: l2 ∧ rectsCollide p.rect wRect = true ∧
          (∀ q ∈ l1, rectsCollide q.rect wRect = false) ∧
          (wPm.check_collision wRect basePlayer).2 = l1 ++ l2 ∧
          (wPm.check_collision wRect basePlayer).2.length + 1 = wPm.projectiles.length) :=
  c3_first_projectile_removed wPm basePlayer wRect rfl

/-! ## Claim about update_difficulty (C6) -/

/-- Claim C6: `update_difficulty` sets the multiplier to
`1.0 + floor(score / 500) × 0.3`: a non-decreasing step function of the
score, constant on each interval `[500k, 500k + 499]`, taking the values
1.0 at 0 and 499, 1.3 at 500, 1.6 at 1000. -/
theorem c6_difficulty_step (pm pm2 pm3 : ProjectileManager) (s t k r : ℤ)
    (hs : 0 ≤ s) (hst : s ≤ t) (hr0 : 0 ≤ r) (hr : r ≤ 499) :
    (pm.update_difficulty s).difficulty_multiplier
        = 1 + ((s / 500 : ℤ) : ℚ) * (3/10) ∧
    (pm.update_difficulty s).difficulty_multiplier
        ≤ (pm2.update_difficulty t).difficulty_multiplier ∧
    (pm.update_difficulty (500 * k + r)).difficulty_multiplier
        = (pm2.update_difficulty (500 * k)).difficulty_multiplier ∧
    (pm3.update_difficulty 0).difficulty_multiplier = 1 ∧
    (pm3.update_difficulty 499).difficulty_multiplier = 1 ∧
    (pm3.update_difficulty 500).difficulty_multiplier = 13/10 ∧
    (pm3.update_difficulty 1000).difficulty_multiplier = 16/10 := by
  have hdef : ∀ (q : ProjectileManager) (z : ℤ),
      (q.update_difficulty z).difficulty_multiplier = 1 + ((z / 500 : ℤ) : ℚ) * (3/10) :=
    fun q z => rfl
  have hmono : (s / 500 : ℤ) ≤ t / 500 := by omega
  have hconst : ((500 * k + r) / 500 : ℤ) = 500 * k / 500 := by omega
  refine ⟨hdef pm s, ?_, ?_, ?_, ?_, ?_, ?_⟩
  · rw [hdef, hdef]
    have : ((s / 500 : ℤ) : ℚ) ≤ ((t / 500 : ℤ) : ℚ) := Int.cast_le.mpr hmono
    nlinarith
  · rw [hdef, hdef, hconst]
  · rw [hdef]; norm_num
  · rw [hdef]; norm_num
  · rw [hdef]; norm_num
  · rw [hdef]; norm_num

theorem c6_difficulty_step_witness :
    ((wPm.update_difficulty 250).difficulty_multiplier
        = 1 + (((250 : ℤ) / 500 : ℤ) : ℚ) * (3/10) ∧
    (wPm.update_difficulty 250).difficulty_multiplier
        ≤ (wPm.update_difficulty 750).difficulty_multiplier ∧
    (wPm.update_difficulty (500 * 1 + 250)).difficulty_multiplier
        = (wPm.update_difficulty (500 * 1)).difficulty_multiplier ∧
    (wPm.update_difficulty 0).difficulty_multiplier = 1 ∧
    (wPm.update_difficulty 499).difficulty_multiplier = 1 ∧
    (wPm.update_difficulty 500).difficulty_multiplier = 13/10 ∧
    (wPm.update_difficulty 1000).difficulty_multiplier = 16/10) :=
  c6_difficulty_step wPm wPm wPm 250 750 1 250
    (by norm_num) (by norm_num) (by norm_num) (by norm_num)

/-! ## Claim about timed-effect expiry (C8, corrected) -/

def cexExpiryPlayer : Player :=
  { basePlayer with shield_active := true, shield_end_time := 500 }

/-- Claim C8 counterexample: a shield whose expiry timestamp equals `now`
is NOT expired by `Player.update` — the update keeps it active, against the
claim that every effect with expiry ≤ now is deactivated. -/
theorem c8_expiry_counterexample :
    cexExpiryPlayer.shield_active = true ∧
    cexExpiryPlayer.shield_end_time ≤ 500 ∧
    (cexExpiryPlayer.update 500).shield_active = true := by
  refine ⟨rfl, by norm_num [cexExpiryPlayer, basePlayer], ?_⟩
  decide

/-- Claim C8 as amended: `Player.update` deactivates exactly the timed
effects whose expiry timestamp is strictly less than `now`; an effect whose
expiry is ≥ now (in particular, equal to now) stays active through the
update. -/
theorem c8_effect_expiry_amended (p : Player) (now : ℤ) :
    ((p.update now).shield_active = true ↔
        p.shield_active = true ∧ now ≤ p.shield_end_time) ∧
    ((p.update now).rapid_fire_active = true ↔
        p.rapid_fire_active = true ∧ now ≤ p.rapid_fire_end_time) ∧
    ((p.update now).slow_time_active = true ↔
        p.slow_time_active = true ∧ now ≤ p.slow_time_end_time) := by
  simp [Player.update, not_lt]

/-! ## Claim about the fire delay (C9) -/

/-- Claim C9: the effective fire-delay threshold of the projectile manager
is the base delay divided by the difficulty multiplier, and it is doubled —
the spawn rate strictly slowed — while the player's rapid-fire effect is
active. -/
theorem c9_rapid_fire_slows (pm : ProjectileManager) (pl plOff : Player)
    (hd : 0 < pm.difficulty_multiplier)
    (hr : pl.rapid_fire_active = true) (hoff : plOff.rapid_fire_active = false) :
    pm.fireDelay pl = (PROJECTILE_FIRE_DELAY / pm.difficulty_multiplier) * 2 ∧
    pm.fireDelay plOff = PROJECTILE_FIRE_DELAY / pm.difficulty_multiplier ∧
    pm.fireDelay pl = 2 * pm.fireDelay plOff ∧
    pm.fireDelay plOff < pm.fireDelay pl := by
  have h1 : pm.fireDelay pl = (PROJECTILE_FIRE_DELAY / pm.difficulty_multiplier) * 2 := by
    simp [ProjectileManager.fireDelay, hr]
  have h2 : pm.fireDelay plOff = PROJECTILE_FIRE_DELAY / pm.difficulty_multiplier := by
    simp [ProjectileManager.fireDelay, hoff]
  have hpos : 0 < PROJECTILE_FIRE_DELAY / pm.difficulty_multiplier := by
    apply div_pos _ hd
    norm_num [PROJECTILE_FIRE_DELAY]
  exact ⟨h1, h2, by rw [h1, h2]; ring, by rw [h1, h2]; linarith⟩

def wRapidPlayer : Player :=
  { basePlayer with rapid_fire_active := true, rapid_fire_end_time := 9000 }

theorem c9_rapid_fire_slows_witness :
    (wPm.fireDelay wRapidPlayer
        = (PROJECTILE_FIRE_DELAY / wPm.difficulty_multiplier) * 2 ∧
    wPm.fireDelay basePlayer = PROJECTILE_FIRE_DELAY / wPm.difficulty_multiplier ∧
    wPm.fireDelay wRapidPlayer = 2 * wPm.fireDelay basePlayer ∧
    wPm.fireDelay basePlayer < wPm.fireDelay wRapidPlayer) :=
  c9_rapid_fire_slows wPm wRapidPlayer basePlayer (by norm_num [wPm]) rfl rfl

/-! ## Claim about the dash (C7) -/

/-- Claim C7: with an empty dash trail, an elapsed cooldown, a dash key held
and no movement key held, `dash` moves the player exactly `DASH_DISTANCE`
(80) rightward clamped to the play-field bounds, appends exactly 5 trail
points with alphas [150, 120, 90, 60, 30], refreshes `last_dash_time` and
returns true; before the cooldown has elapsed it returns false and leaves
the player (position, trail, dash timestamp) unchanged. -/
theorem c7_dash (p : Player) (k : Keys) (now now2 : ℤ)
    (htrail : p.dash_trail = [])
    (hcd : DASH_COOLDOWN < now - p.last_dash_time)
    (hdash : k.dashKey = true)
    (hl : k.left = false) (hr : k.right = false) (hu : k.up = false) (hd : k.down = false)
    (hcd2 : ¬ DASH_COOLDOWN < now2 - p.last_dash_time) :
    (p.dash k now).2 = true ∧
    (p.dash k now).1.rect.x = clampCoord (p.rect.x + DASH_DISTANCE) p.rect.w SCREEN_WIDTH ∧
    (p.dash k now).1.rect.y = clampCoord p.rect.y p.rect.h SCREEN_HEIGHT ∧
    (p.dash k now).1.last_dash_time = now ∧
    (p.dash k now).1.dash_trail.length = 5 ∧
    (p.dash k now).1.dash_trail.map Prod.snd = [150, 120, 90, 60, 30] ∧
    p.dash k now2 = (p, false) := by
  have hcond : DASH_COOLDOWN < now - p.last_dash_time ∧ k.dashKey = true := ⟨hcd, hdash⟩
  rw [Player.dash, if_pos hcond]
  norm_num [hl, hr, hu, hd, htrail, pyint, Rect.clampScreen, List.range_succ]
  rw [Player.dash, if_neg (fun hc => hcd2 hc.1)]

def wDashKeys : Keys := ⟨false, false, false, false, true⟩

theorem c7_dash_witness :
    ((basePlayer.dash wDashKeys 2000).2 = true ∧
    (basePlayer.dash wDashKeys 2000).1.rect.x
        = clampCoord (basePlayer.rect.x + DASH_DISTANCE) basePlayer.rect.w SCREEN_WIDTH ∧
    (basePlayer.dash wDashKeys 2000).1.rect.y
        = clampCoord basePlayer.rect.y basePlayer.rect.h SCREEN_HEIGHT ∧
    (basePlayer.dash wDashKeys 2000).1.last_dash_time = 2000 ∧
    (basePlayer.dash wDashKeys 2000).1.dash_trail.length = 5 ∧
    (basePlayer.dash wDashKeys 2000).1.dash_trail.map Prod.snd = [150, 120, 90, 60, 30] ∧
    basePlayer.dash wDashKeys 500 = (basePlayer, false)) :=
  c7_dash basePlayer wDashKeys 2000 500 rfl (by decide) rfl rfl rfl rfl rfl (by decide)

/-! ## Session-level lemmas -/

theorem collectPowerups_lives_le (inp : TickInput) (prect : Rect) (pl : Player)
    (lives : ℤ) (parts : List Particle) (j : ℕ) (l : List PowerUp) :
    lives ≤ (collectPowerups inp prect pl lives parts j l).lives := by
  induction l generalizing pl lives parts j with
  | nil => simp [collectPowerups]
  | cons pu rest ih =>
    by_cases hc : rectsCollide pu.rect prect = true
    · rw [collectPowerups, if_pos hc]
      refine le_trans ?_ (ih _ _ _ _)
      by_cases hm : pu.ty = PowerUpType.multi_life <;> simp [hm]
    · rw [collectPowerups, if_neg hc]
      exact ih pl lives parts j

theorem tickCol_lives_le (g : Game) (inp : TickInput) :
    g.lives ≤ (g.tickCol inp).lives := by
  unfold Game.tickCol
  apply collectPowerups_lives_le

theorem update_game_trigger (g : Game) (inp : TickInput)
    (hst : g.state = GState.playing)
    (htr : g.cutscene_triggered = false ∧ CUTSCENE_TRIGGER_SCORE ≤ g.score) :
    g.update_game inp = { g with
      cutscene_triggered := true
      state := GState.cutscene
      cutscene := g.cutscene.start g.player.rect inp.now
      cutsceneStarts := g.cutsceneStarts + 1
      player := g.player.freeze true
      pm := g.pm.set_active false
      sounds := [] } := by
  rw [Game.update_game, if_neg (not_not_intro hst), if_pos htr]

theorem update_game_normal (g : Game) (inp : TickInput)
    (hst : g.state = GState.playing)
    (hn : ¬(g.cutscene_triggered = false ∧ CUTSCENE_TRIGGER_SCORE ≤ g.score)) :
    g.update_game inp = g.resolveHit inp (g.tickCol inp) (g.tickPm2 inp) := by
  rw [Game.update_game, if_neg (not_not_intro hst), if_neg hn]

theorem resolveHit_spec (g : Game) (inp : TickInput) (col : CollectRes)
    (pm2 : ProjectileManager) :
    (g.resolveHit inp col pm2).score = g.score + 1 ∧
    (g.resolveHit inp col pm2).cutscene_triggered = g.cutscene_triggered ∧
    (g.resolveHit inp col pm2).cutsceneStarts = g.cutsceneStarts ∧
    (((g.resolveHit inp col pm2).lives = col.lives ∧
        (g.resolveHit inp col pm2).state = g.state) ∨
     ((g.resolveHit inp col pm2).lives = col.lives - 1 ∧
       ((col.lives - 1 ≤ 0 ∧ (g.resolveHit inp col pm2).state = GState.gameOver ∧
           AudioEv.musicStop ∈ (g.resolveHit inp col pm2).sounds ∧
           AudioEv.gameOverSnd ∈ (g.resolveHit inp col pm2).sounds) ∨
        (0 < col.lives - 1 ∧ (g.resolveHit inp col pm2).state = g.state)))) := by
  refine ⟨rfl, rfl, rfl, ?_⟩
  by_cases hh : ((pm2.check_collision col.player.rect col.player).1
      && !col.player.shield_active) = true
  · right
    by_cases hl : col.lives - 1 ≤ 0
    · refine ⟨by simp [Game.resolveHit, hh], Or.inl ⟨hl, ?_, ?_, ?_⟩⟩
      · simp [Game.resolveHit, hh, hl]
      · simp [Game.resolveHit, hh, hl]
      · simp [Game.resolveHit, hh, hl]
    · refine ⟨by simp [Game.resolveHit, hh], Or.inr ⟨by omega, ?_⟩⟩
      simp [Game.resolveHit, hh, hl]
  · left
    exact ⟨by simp [Game.resolveHit, hh], by simp [Game.resolveHit, hh]⟩

theorem update_cutscene_fields (g : Game) (inp : TickInput) :
    (g.update_cutscene inp).lives = g.lives ∧
    (g.update_cutscene inp).score = g.score ∧
    (g.update_cutscene inp).cutscene_triggered = g.cutscene_triggered ∧
    (g.update_cutscene inp).cutsceneStarts = g.cutsceneStarts ∧
    ((g.update_cutscene inp).state = GState.playing ∨
      (g.update_cutscene inp).state = g.state) := by
  unfold Game.update_cutscene
  by_cases h : (g.cutscene.update inp.now).2 = true <;> simp [h]

theorem update_opening_crawl_fields (g : Game) :
    (g.update_opening_crawl).lives = g.lives ∧
    (g.update_opening_crawl).score = g.score ∧
    (g.update_opening_crawl).cutscene_triggered = g.cutscene_triggered ∧
    (g.update_opening_crawl).cutsceneStarts = g.cutsceneStarts ∧
    ((g.update_opening_crawl).state = GState.menu ∨
      (g.update_opening_crawl).state = g.state) := by
  unfold Game.update_opening_crawl
  by_cases h : (g.opening_crawl.update).2 = true <;> simp [h]

theorem stepTick_eq_crawl (g : Game) (inp : TickInput)
    (h : g.state = GState.openingCrawl) : g.stepTick inp = g.update_opening_crawl := by
  unfold Game.stepTick
  rw [h]

theorem stepTick_eq_playing (g : Game) (inp : TickInput)
    (h : g.state = GState.playing) : g.stepTick inp = g.update_game inp := by
  unfold Game.stepTick
  rw [h]

theorem stepTick_eq_cutscene (g : Game) (inp : TickInput)
    (h : g.state = GState.cutscene) : g.stepTick inp = g.update_cutscene inp := by
  unfold Game.stepTick
  rw [h]

theorem stepTick_eq_menu (g : Game) (inp : TickInput)
    (h : g.state = GState.menu) : g.stepTick inp = g := by
  unfold Game.stepTick
  rw [h]

theorem stepTick_eq_gameOver (g : Game) (inp : TickInput)
    (h : g.state = GState.gameOver) : g.stepTick inp = g := by
  unfold Game.stepTick
  rw [h]

theorem stepClick_eq_menu (g : Game) (now : ℤ)
    (h : g.state = GState.menu) : g.stepClick now = g.start_game now := by
  unfold Game.stepClick
  rw [h]

theorem stepClick_eq_gameOver (g : Game) (now : ℤ)
    (h : g.state = GState.gameOver) : g.stepClick now = g.reset_game := by
  unfold Game.stepClick
  rw [h]

theorem stepClick_eq_other (g : Game) (now : ℤ)
    (h1 : g.state ≠ GState.menu) (h2 : g.state ≠ GState.gameOver) :
    g.stepClick now = g := by
  unfold Game.stepClick
  rcases hst : g.state <;> first | rfl | exact absurd hst h1 | exact absurd hst h2

/-! ## Reachability invariants -/

/-- Lives are non-negative, and at least 1 while the session is in Playing
or Cutscene. -/
def LivesInv (g : Game) : Prop :=
  0 ≤ g.lives ∧ ((g.state = GState.playing ∨ g.state = GState.cutscene) → 1 ≤ g.lives)

theorem livesInv_reachable (g : Game) (h : Reachable g) : LivesInv g := by
  induction h with
  | init pw ph ew eh nf =>
    exact ⟨by norm_num [initGame, INITIAL_LIVES], fun hc => by
      rcases hc with hc | hc <;> exact absurd hc (by simp [initGame])⟩
  | tick g inp hg ih =>
    rcases hst : g.state with _ | _ | _ | _ | _
    · -- opening crawl
      rw [stepTick_eq_crawl g inp hst]
      obtain ⟨hl, -, -, -, hstate⟩ := update_opening_crawl_fields g
      refine ⟨by rw [hl]; exact ih.1, fun hps => ?_⟩
      rcases hstate with hs2 | hs2 <;> rw [hs2] at hps
      · rcases hps with hp | hp <;> exact absurd hp (by simp)
      · rw [hst] at hps
        rcases hps with hp | hp <;> exact absurd hp (by simp)
    · -- menu
      rw [stepTick_eq_menu g inp hst]
      exact ih
    · -- playing
      rw [stepTick_eq_playing g inp hst]
      have h1 : 1 ≤ g.lives := ih.2 (Or.inl hst)
      by_cases htr : g.cutscene_triggered = false ∧ CUTSCENE_TRIGGER_SCORE ≤ g.score
      · rw [update_game_trigger g inp hst htr]
        exact ⟨le_trans zero_le_one h1, fun _ => h1⟩
      · rw [update_game_normal g inp hst htr]
        obtain ⟨-, -, -, hcases⟩ := resolveHit_spec g inp (g.tickCol inp) (g.tickPm2 inp)
        have hle : g.lives ≤ (g.tickCol inp).lives := tickCol_lives_le g inp
        rcases hcases with ⟨hlv, hstate⟩ | ⟨hlv, hinner⟩
        · exact ⟨by rw [hlv]; omega, fun _ => by rw [hlv]; omega⟩
        · rcases hinner with ⟨hle0, hgo, -, -⟩ | ⟨hpos, hstate⟩
          · refine ⟨by rw [hlv]; omega, fun hps => ?_⟩
            rcases hps with hp | hp <;> rw [hgo] at hp <;> exact absurd hp (by simp)
          · exact ⟨by rw [hlv]; omega, fun _ => by rw [hlv]; omega⟩
    · -- cutscene
      rw [stepTick_eq_cutscene g inp hst]
      obtain ⟨hl, -, -, -, hstate⟩ := update_cutscene_fields g inp
      have h1 : 1 ≤ g.lives := ih.2 (Or.inr hst)
      exact ⟨by rw [hl]; omega, fun _ => by rw [hl]; omega⟩
    · -- game over
      rw [stepTick_eq_gameOver g inp hst]
      exact ih
  | click g now hg ih =>
    rcases hst : g.state with _ | _ | _ | _ | _
    · rw [stepClick_eq_other g now (by rw [hst]; simp) (by rw [hst]; simp)]
      exact ih
    · rw [stepClick_eq_menu g now hst]
      exact ⟨by norm_num [Game.start_game, INITIAL_LIVES],
             fun _ => by norm_num [Game.start_game, INITIAL_LIVES]⟩
    · rw [stepClick_eq_other g now (by rw [hst]; simp) (by rw [hst]; simp)]
      exact ih
    · rw [stepClick_eq_other g now (by rw [hst]; simp) (by rw [hst]; simp)]
      exact ih
    · rw [stepClick_eq_gameOver g now hst]
      refine ⟨ih.1, fun hps => ?_⟩
      rcases hps with hp | hp <;> exact absurd hp (by simp [Game.reset_game])

/-- The ghost count of `Cutscene.start` calls matches the one-shot flag:
0 before the trigger has fired this session, 1 after. -/
def StartsInv (g : Game) : Prop :=
  g.cutsceneStarts = (if g.cutscene_triggered = true then 1 else 0)

theorem startsInv_reachable (g : Game) (h : Reachable g) : StartsInv g := by
  induction h with
  | init pw ph ew eh nf => simp [StartsInv, initGame]
  | tick g inp hg ih =>
    rcases hst : g.state with _ | _ | _ | _ | _
    · rw [StartsInv, stepTick_eq_crawl g inp hst]
      obtain ⟨-, -, htg, hcs, -⟩ := update_opening_crawl_fields g
      rw [htg, hcs]
      exact ih
    · rw [stepTick_eq_menu g inp hst]
      exact ih
    · rw [StartsInv, stepTick_eq_playing g inp hst]
      by_cases htr : g.cutscene_triggered = false ∧ CUTSCENE_TRIGGER_SCORE ≤ g.score
      · rw [update_game_trigger g inp hst htr]
        have h0 : g.cutsceneStarts = 0 := by
          rw [StartsInv] at ih
          rw [ih, htr.1]
          simp
        show g.cutsceneStarts + 1 = _
        rw [h0]
        simp
      · rw [update_game_normal g inp hst htr]
        obtain ⟨-, htg, hcs, -⟩ := resolveHit_spec g inp (g.tickCol inp) (g.tickPm2 inp)
        rw [htg, hcs]
        exact ih
    · rw [StartsInv, stepTick_eq_cutscene g inp hst]
      obtain ⟨-, -, htg, hcs, -⟩ := update_cutscene_fields g inp
      rw [htg, hcs]
      exact ih
    · rw [stepTick_eq_gameOver g inp hst]
      exact ih
  | click g now hg ih =>
    rcases hst : g.state with _ | _ | _ | _ | _
    · rw [stepClick_eq_other g now (by rw [hst]; simp) (by rw [hst]; simp)]
      exact ih
    · rw [stepClick_eq_menu g now hst]
      simp [StartsInv, Game.start_game]
    · rw [stepClick_eq_other g now (by rw [hst]; simp) (by rw [hst]; simp)]
      exact ih
    · rw [stepClick_eq_other g now (by rw [hst]; simp) (by rw [hst]; simp)]
      exact ih
    · rw [stepClick_eq_gameOver g now hst]
      exact ih

/-! ## Concrete session states and input -/

def wInput : TickInput :=
  { now := 0, keys := ⟨false, false, false, false, false⟩, spawnRoll := false,
    spawnX := 0, spawnY := 0, spawnType := PowerUpType.shield,
    bobSin := fun _ => 0, projY := fun _ => 0, projMult := fun _ => 1,
    shakeOffset := (0, 0), explVel := fun _ _ => (0, 0), explLife := fun _ _ => 1,
    explSize := fun _ _ => 1, trailVel := (0, 0), trailLife := 1, trailSize := 1 }

def wInit : Game := initGame 30 30 40 40 4

/-! ## Claim C1: the lives invariant -/

/-- Claim C1: in every reachable session state, lives are ≥ 0 outside
GameOver and the session is never in Playing with 0 lives; and when a
Playing tick ends with lives = 0 (an unshielded hit spent the last life),
that same tick has moved the session to GameOver, stopping the music and
playing the game-over sound. -/
theorem c1_lives_invariant (g : Game) (inp : TickInput) (h : Reachable g) :
    (g.state ≠ GState.gameOver → 0 ≤ g.lives) ∧
    ¬(g.state = GState.playing ∧ g.lives = 0) ∧
    (g.state = GState.playing → (g.update_game inp).lives = 0 →
      (g.update_game inp).state = GState.gameOver ∧
      AudioEv.musicStop ∈ (g.update_game inp).sounds ∧
      AudioEv.gameOverSnd ∈ (g.update_game inp).sounds) := by
  have hInv := livesInv_reachable g h
  refine ⟨fun _ => hInv.1, ?_, ?_⟩
  · rintro ⟨hp, hl⟩
    have := hInv.2 (Or.inl hp)
    omega
  · intro hp hl0
    have h1 : 1 ≤ g.lives := hInv.2 (Or.inl hp)
    by_cases htr : g.cutscene_triggered = false ∧ CUTSCENE_TRIGGER_SCORE ≤ g.score
    · rw [update_game_trigger g inp hp htr] at hl0
      have hl0' : g.lives = 0 := hl0
      exact absurd hl0' (by omega)
    · rw [update_game_normal g inp hp htr] at hl0 ⊢
      obtain ⟨-, -, -, hcases⟩ := resolveHit_spec g inp (g.tickCol inp) (g.tickPm2 inp)
      have hle : g.lives ≤ (g.tickCol inp).lives := tickCol_lives_le g inp
      rcases hcases with ⟨hlv, -⟩ | ⟨hlv, hinner⟩
      · rw [hlv] at hl0
        exact absurd hl0 (by omega)
      · rcases hinner with ⟨-, hgo, hm1, hm2⟩ | ⟨hpos, -⟩
        · exact ⟨hgo, hm1, hm2⟩
        · rw [hlv] at hl0
          exact absurd hl0 (by omega)

theorem c1_lives_invariant_witness :
    ((wInit.state ≠ GState.gameOver → 0 ≤ wInit.lives) ∧
    ¬(wInit.state = GState.playing ∧ wInit.lives = 0) ∧
    (wInit.state = GState.playing → (wInit.update_game wInput).lives = 0 →
      (wInit.update_game wInput).state = GState.gameOver ∧
      AudioEv.musicStop ∈ (wInit.update_game wInput).sounds ∧
      AudioEv.gameOverSnd ∈ (wInit.update_game wInput).sounds)) :=
  c1_lives_invariant wInit wInput (Reachable.init 30 30 40 40 4)

/-! ## Claim C4: the cutscene triggers exactly once per session -/

/-- Claim C4: in every reachable session state the ghost count of
`Cutscene.start` calls is 1 if the one-shot flag is up and 0 otherwise; on a
Playing tick with score at the trigger threshold, the first such tick (flag
down) performs the one and only `start` — entering Cutscene, freezing the
player and disabling the projectile manager — and every later qualifying
tick of the session (flag up) performs no further `start`. -/
theorem c4_cutscene_starts_once (g : Game) (inp : TickInput) (h : Reachable g) :
    g.cutsceneStarts = (if g.cutscene_triggered = true then 1 else 0) ∧
    (g.state = GState.playing → CUTSCENE_TRIGGER_SCORE ≤ g.score →
      ((g.cutscene_triggered = false →
          (g.update_game inp).cutsceneStarts = 1 ∧
          (g.update_game inp).state = GState.cutscene ∧
          (g.update_game inp).cutscene.active = true ∧
          (g.update_game inp).player.frozen = true ∧
          (g.update_game inp).pm.active = false) ∧
       (g.cutscene_triggered = true →
          (g.update_game inp).cutsceneStarts = g.cutsceneStarts ∧
          (g.update_game inp).cutscene_triggered = true))) := by
  have hI := startsInv_reachable g h
  rw [StartsInv] at hI
  refine ⟨hI, fun hp hsc => ⟨?_, ?_⟩⟩
  · intro hf
    rw [update_game_trigger g inp hp ⟨hf, hsc⟩]
    have h0 : g.cutsceneStarts = 0 := by
      rw [hI, hf]
      simp
    refine ⟨?_, rfl, rfl, rfl, rfl⟩
    show g.cutsceneStarts + 1 = 1
    omega
  · intro ht
    have hn : ¬(g.cutscene_triggered = false ∧ CUTSCENE_TRIGGER_SCORE ≤ g.score) := by
      simp [ht]
    rw [update_game_normal g inp hp hn]
    obtain ⟨-, htg, hcs, -⟩ := resolveHit_spec g inp (g.tickCol inp) (g.tickPm2 inp)
    exact ⟨hcs, by rw [htg, ht]⟩

theorem c4_cutscene_starts_once_witness :
    (wInit.cutsceneStarts = (if wInit.cutscene_triggered = true then 1 else 0) ∧
    (wInit.state = GState.playing → CUTSCENE_TRIGGER_SCORE ≤ wInit.score →
      ((wInit.cutscene_triggered = false →
          (wInit.update_game wInput).cutsceneStarts = 1 ∧
          (wInit.update_game wInput).state = GState.cutscene ∧
          (wInit.update_game wInput).cutscene.active = true ∧
          (wInit.update_game wInput).player.frozen = true ∧
          (wInit.update_game wInput).pm.active = false) ∧
       (wInit.cutscene_triggered = true →
          (wInit.update_game wInput).cutsceneStarts = wInit.cutsceneStarts ∧
          (wInit.update_game wInput).cutscene_triggered = true)))) :=
  c4_cutscene_starts_once wInit wInput (Reachable.init 30 30 40 40 4)

/-! ## Claim C5 (corrected): the per-tick score increment -/

def cexGame : Game :=
  { wInit with state := GState.playing, score := 1000 }

/-- Claim C5 counterexample: a tick that begins in Playing with the cutscene
trigger condition met (score = 1000, flag down) leaves the score unchanged —
`update_game` returns from the trigger branch before `score += 1` — so the
increment is not unconditional on every Playing tick. -/
theorem c5_score_counterexample :
    cexGame.state = GState.playing ∧
    cexGame.cutscene_triggered = false ∧
    CUTSCENE_TRIGGER_SCORE ≤ cexGame.score ∧
    (cexGame.update_game wInput).score = cexGame.score ∧
    ¬((cexGame.update_game wInput).score = cexGame.score + 1) := by
  have htr : cexGame.cutscene_triggered = false ∧
      CUTSCENE_TRIGGER_SCORE ≤ cexGame.score := ⟨rfl, by decide⟩
  have h := update_game_trigger cexGame wInput rfl htr
  refine ⟨rfl, rfl, htr.2, ?_, ?_⟩
  · rw [h]
  · rw [h]
    show ¬(cexGame.score = cexGame.score + 1)
    omega

/-- Claim C5 as amended: on every tick that begins in Playing the score
increments by exactly 1 — whatever else happens that tick (hits, power-up
collection, even the transition to GameOver) — EXCEPT the tick on which the
cutscene trigger fires (flag down and score at the threshold), which returns
early and leaves the score unchanged. -/
theorem c5_score_amended (g : Game) (inp : TickInput) (hst : g.state = GState.playing) :
    (¬(g.cutscene_triggered = false ∧ CUTSCENE_TRIGGER_SCORE ≤ g.score) →
        (g.update_game inp).score = g.score + 1) ∧
    ((g.cutscene_triggered = false ∧ CUTSCENE_TRIGGER_SCORE ≤ g.score) →
        (g.update_game inp).score = g.score) := by
  constructor
  · intro hn
    rw [update_game_normal g inp hst hn]
    exact (resolveHit_spec g inp (g.tickCol inp) (g.tickPm2 inp)).1
  · intro htr
    rw [update_game_trigger g inp hst htr]

def wPlayingGame : Game :=
  { wInit with state := GState.playing, score := 7 }

theorem c5_score_amended_witness :
    ((¬(wPlayingGame.cutscene_triggered = false ∧
          CUTSCENE_TRIGGER_SCORE ≤ wPlayingGame.score) →
        (wPlayingGame.update_game wInput).score = wPlayingGame.score + 1) ∧
    ((wPlayingGame.cutscene_triggered = false ∧
          CUTSCENE_TRIGGER_SCORE ≤ wPlayingGame.score) →
        (wPlayingGame.update_game wInput).score = wPlayingGame.score)) :=
  c5_score_amended wPlayingGame wInput rfl

/-! ## Claim C10: start_game resets the session -/

/-- Claim C10: starting a new game resets the cutscene one-shot flag along
with lives, score, projectiles, power-ups and particles, so the cutscene
will trigger again in the new session: from the post-start state, any
Playing tick whose score has reached the threshold invokes `Cutscene.start`
(one new ghost count) and enters the Cutscene state. -/
theorem c10_start_game_resets (g : Game) (now : ℤ) (inp : TickInput) (s : ℤ)
    (hs : CUTSCENE_TRIGGER_SCORE ≤ s) :
    (g.start_game now).cutscene_triggered = false ∧
    (g.start_game now).lives = INITIAL_LIVES ∧
    (g.start_game now).score = 0 ∧
    (g.start_game now).pm.projectiles = [] ∧
    (g.start_game now).pm.active = true ∧
    (g.start_game now).powerups = [] ∧
    (g.start_game now).particles = [] ∧
    (g.start_game now).state = GState.playing ∧
    (g.start_game now).cutsceneStarts = 0 ∧
    (({ g.start_game now with score := s }).update_game inp).state = GState.cutscene ∧
    (({ g.start_game now with score := s }).update_game inp).cutsceneStarts = 1 := by
  have htr : ({ g.start_game now with score := s }).cutscene_triggered = false ∧
      CUTSCENE_TRIGGER_SCORE ≤ ({ g.start_game now with score := s }).score :=
    ⟨rfl, hs⟩
  have h := update_game_trigger { g.start_game now with score := s } inp rfl htr
  refine ⟨rfl, rfl, rfl, rfl, rfl, rfl, rfl, rfl, rfl, ?_, ?_⟩
  · rw [h]
  · rw [h]
    rfl

theorem c10_start_game_resets_witness :
    ((wInit.start_game 42).cutscene_triggered = false ∧
    (wInit.start_game 42).lives = INITIAL_LIVES ∧
    (wInit.start_game 42).score = 0 ∧
    (wInit.start_game 42).pm.projectiles = [] ∧
    (wInit.start_game 42).pm.active = true ∧
    (wInit.start_game 42).powerups = [] ∧
    (wInit.start_game 42).particles = [] ∧
    (wInit.start_game 42).state = GState.playing ∧
    (wInit.start_game 42).cutsceneStarts = 0 ∧
    (({ wInit.start_game 42 with score := 1500 }).update_game wInput).state
        = GState.cutscene ∧
    (({ wInit.start_game 42 with score := 1500 }).update_game wInput).cutsceneStarts
        = 1) :=
  c10_start_game_resets wInit 42 wInput 1500 (by decide)

end ArcadeGame
